import Mathlib

/-!
# Verification of the memoize-api scheduling and card-listing core

Shallow embedding of the flashcard application's card CRUD and
spaced-repetition scheduling code (`app/main.py`, `app/models.py`,
`app/schemas.py`) in Lean 4, together with proofs of the specification's
claims about it.

Timestamps are modelled as integers: microseconds relative to the Unix
epoch, in UTC (Python `datetime` objects carry microsecond precision).
Python's floor-style `%` on a positive modulus agrees with Lean's `Int.emod`,
which is what `%` on `Int` denotes here.

The pseudo-random multiplier `randint(3, 5)` drawn in `record_study` is
modelled as an explicit parameter `m`; theorems that concern the random
branch quantify over every `m` with `3 ≤ m ∧ m ≤ 5`.
-/

namespace MemoizeApi

/-- Length of one day in microseconds (`timedelta(days=1)`). -/
def usPerDay : Int := 86400000000

/-- Day count from 1970-01-01 of a Gregorian calendar date (civil-to-days
conversion; all intermediate divisions act on non-negative operands, so
`Int.ediv` agrees with the usual integer division). -/
def daysFromCivil (y : Int) (mo d : Nat) : Int :=
  let y : Int := if mo ≤ 2 then y - 1 else y
  let era : Int := (if 0 ≤ y then y else y - 399) / 400
  let yoe : Int := y - era * 400
  let mp : Int := ((mo : Int) + 9) % 12
  let doy : Int := (153 * mp + 2) / 5 + (d : Int) - 1
  let doe : Int := yoe * 365 + yoe / 4 - yoe / 100 + doy
  era * 146097 + doe - 719468

/-- UTC timestamp (microseconds since epoch) of a civil date and time. -/
def utcTS (y : Int) (mo d h mi s : Nat) : Int :=
  (daysFromCivil y mo d * 86400 + (h : Int) * 3600 + (mi : Int) * 60 + (s : Int)) * 1000000

/-- `(now + timedelta(days=1)).replace(hour=0, minute=0, second=0, microsecond=0)`
in UTC: start of the calendar day following `now` (`app/main.py:300-302`). -/
def startOfNextDay (now : Int) : Int :=
  (now + usPerDay) - (now + usPerDay) % usPerDay

/-- The `cards` table row (`app/models.py`, class `Card`). `next_study` is a
nullable `DateTime` column; `study_count` defaults to 0 and is only ever
incremented, hence a `Nat`. -/
structure Card where
  id : Nat
  front : String
  back : String
  created_at : Int
  username : String
  study_count : Nat
  next_study : Option Int
  tags : List String
  category_id : Nat
deriving Repr, DecidableEq

/-- The `categories` table row (`app/models.py`, class `Category`). -/
structure Category where
  id : Nat
  name : String
  description : String
  priority : Int
  created_at : Int
  created_by : String
deriving Repr, DecidableEq

/-- Body of `POST /cards/{card_id}/study` after the card row is loaded
(`app/main.py:292-309`): increment `study_count`, then branch on
`not success or study_count == 1` to schedule either the start of the next
day or `now + min((study_count - 1) * m, 30)` days, where `m` models the
`randint(3, 5)` draw. -/
def record_study (card : Card) (success : Bool) (now : Int) (m : Nat) : Card :=
  let card := { card with study_count := card.study_count + 1 }
  if !success || card.study_count == 1 then
    { card with next_study := some (startOfNextDay now) }
  else
    let next_interval : Nat := min ((card.study_count - 1) * m) 30
    { card with next_study := some (now + (next_interval : Int) * usPerDay) }

/-- The scheduler's decision restricted to its actual inputs: the card's
pre-increment `study_count`, the outcome, the clock and the random draw.
Used to state that `record_study` reads no other card field. -/
def sched_next_study (sc : Nat) (success : Bool) (now : Int) (m : Nat) : Int :=
  if !success || sc + 1 == 1 then startOfNextDay now
  else now + ((min (sc * m) 30 : Nat) : Int) * usPerDay

/-- Request body of `POST /cards/` (`app/schemas.py`, class `CardCreate`). -/
structure CardCreate where
  front : String
  back : String
  tags : List String
  category_id : Nat
deriving Repr, DecidableEq

/-- Request body of `PUT /cards/{card_id}` (`app/schemas.py`, class
`CardUpdate`). Every field is optional; `model_dump(exclude_unset=True)`
applies only the fields the request supplied, so `none` models an absent
field. `next_study` is a nullable column, hence `Option (Option Int)`:
`some v` models a supplied value `v` (itself possibly null). The class has
no `study_count` field. -/
structure CardUpdate where
  front : Option String := none
  back : Option String := none
  tags : Option (List String) := none
  category_id : Option Nat := none
  next_study : Option (Option Int) := none
deriving Repr, DecidableEq

/-- The `setattr` loop of `update_card` (`app/main.py:246-248`): overwrite
exactly the columns the request supplied. -/
def apply_update (c : Card) (u : CardUpdate) : Card :=
  { c with
    front := u.front.getD c.front
    back := u.back.getD c.back
    tags := u.tags.getD c.tags
    category_id := u.category_id.getD c.category_id
    next_study := match u.next_study with
      | some v => v
      | none => c.next_study }

/-- `db.query(...).filter(id == card_id, username == user).first()` followed by
mutation of the found row: rewrite the first card matching `p` with `f`. -/
def update_first (db : List Card) (p : Card → Bool) (f : Card → Card) : List Card :=
  match db with
  | [] => []
  | c :: rest => if p c then f c :: rest else c :: update_first rest p f

/-- Row-lookup predicate shared by the card endpoints:
`models.Card.id == card_id, models.Card.username == current_user.username`. -/
def owned_card (card_id : Nat) (username : String) (c : Card) : Bool :=
  c.id == card_id && c.username == username

/-- `POST /cards/` (`app/main.py:165-184`): 404 when the category does not
exist; otherwise insert a new row built from the request body, the caller's
username and `next_study=datetime.now(timezone.utc)`. `study_count` and
`created_at` come from the column defaults (`app/models.py:33,35`); the
`created_at` default value is passed in as `created_at_default`. The error
side of the `Except` is the HTTP status code. -/
def create_card (db : List Card) (categories : List Category) (card : CardCreate)
    (username : String) (created_at_default : Int) (now : Int)
    (new_id : Nat) : Except Nat (List Card) :=
  if (categories.find? (fun cat => cat.id == card.category_id)).isSome then
    .ok (db ++ [{ id := new_id
                  front := card.front
                  back := card.back
                  created_at := created_at_default
                  username := username
                  study_count := 0
                  next_study := some now
                  tags := card.tags
                  category_id := card.category_id }])
  else .error 404

/-- `PUT /cards/{card_id}` (`app/main.py:231-252`): 404 when no card with
this id is owned by the caller; otherwise apply the supplied fields to that
row. -/
def update_card (db : List Card) (card_id : Nat) (username : String)
    (u : CardUpdate) : Except Nat (List Card) :=
  if (db.find? (owned_card card_id username)).isSome then
    .ok (update_first db (owned_card card_id username) (fun c => apply_update c u))
  else .error 404

/-- `DELETE /cards/{card_id}` (`app/main.py:254-270`): 404 when no card with
this id is owned by the caller; otherwise remove that row. -/
def delete_card (db : List Card) (card_id : Nat) (username : String) :
    Except Nat (List Card) :=
  if (db.find? (owned_card card_id username)).isSome then
    .ok (db.eraseP (owned_card card_id username))
  else .error 404

/-- `POST /cards/{card_id}/study` (`app/main.py:272-312`). The request body
is a free-form dict; `study_data` is `none` when the `success` key is absent
(400) and `some success` otherwise. The card lookup happens after that check
and 404s before any mutation. On success the found row is replaced by
`record_study` of it. Returns the HTTP error code (`some code`) or `none`
together with the resulting table. -/
def record_study_endpoint (db : List Card) (card_id : Nat) (username : String)
    (study_data : Option Bool) (now : Int) (m : Nat) :
    Option Nat × List Card :=
  match study_data with
  | none => (some 400, db)
  | some success =>
    if (db.find? (owned_card card_id username)).isSome then
      (none, update_first db (owned_card card_id username)
        (fun c => record_study c success now m))
    else (some 404, db)

/-- Composite study-mode sort key of `list_cards` (`app/main.py:207-211`):
`next_study.is_(None).asc()` first (rows with a value before rows without),
then `next_study.asc()`. -/
def dueKey (c : Card) : Nat × Int :=
  (if c.next_study.isSome then 0 else 1, c.next_study.getD 0)

/-- Boolean "not after" relation induced by `dueKey`, lexicographically. -/
def dueLE (a b : Card) : Bool :=
  decide ((dueKey a).1 < (dueKey b).1 ∨
    ((dueKey a).1 = (dueKey b).1 ∧ (dueKey a).2 ≤ (dueKey b).2))

/-- The filter stage of `GET /cards/` (`app/main.py:196-203`): restrict to
the caller's cards, then optionally by category and tag. Python's
`if category_id:` and `if tag:` test truthiness, so `0` and `""` disable the
respective filter. -/
def card_filtered (db : List Card) (username : String) (category_id : Option Nat)
    (tag : Option String) : List Card :=
  let q := db.filter (fun c => c.username == username)
  let q := match category_id with
    | some cid => if cid ≠ 0 then q.filter (fun c => c.category_id == cid) else q
    | none => q
  match tag with
  | some t => if t ≠ "" then q.filter (fun c => c.tags.contains t) else q
  | none => q

/-- `GET /cards/` (`app/main.py:186-229`): filter, sort by the study-mode key
when `study` is set, then paginate with `offset(skip).limit(limit)`. -/
def list_cards (db : List Card) (username : String) (study : Bool)
    (category_id : Option Nat) (tag : Option String) (skip limit : Nat) :
    List Card :=
  let q := card_filtered db username category_id tag
  let q := if study then q.mergeSort dueLE else q
  (q.drop skip).take limit

/-! ## Helper lemmas -/

/-- A fresh card as `create_card` would build it, before any study attempt
is recorded on it (with `next_study` cleared, for use as a generic state). -/
def freshCard : Card :=
  { id := 1, front := "front", back := "back", created_at := 0, username := "u",
    study_count := 0, next_study := none, tags := [], category_id := 1 }

theorem record_study_eq (card : Card) (success : Bool) (now : Int) (m : Nat) :
    record_study card success now m =
      { card with study_count := card.study_count + 1,
                  next_study := some (sched_next_study card.study_count success now m) } := by
  cases success
  · simp only [record_study, sched_next_study, Bool.not_false, Bool.true_or, if_true]
  · simp only [record_study, sched_next_study, Bool.not_true, Bool.false_or,
      Nat.add_sub_cancel]
    split <;> rfl

theorem startOfNextDay_emod (now : Int) : startOfNextDay now % usPerDay = 0 := by
  unfold startOfNextDay usPerDay
  omega

theorem lt_startOfNextDay (now : Int) : now < startOfNextDay now := by
  unfold startOfNextDay usPerDay
  omega

theorem startOfNextDay_le (now : Int) : startOfNextDay now ≤ now + usPerDay := by
  unfold startOfNextDay usPerDay
  omega

theorem usPerDay_pos : 0 < usPerDay := by unfold usPerDay; omega

/-! ## Claim theorems -/

/-- C3: for every state, outcome and time, recording a study attempt
increments `study_count` by exactly 1, unconditionally — the same on success
and failure, with no reset and no other change to the counter. -/
theorem claim_C3_study_count_increment (card : Card) (success : Bool)
    (now : Int) (m : Nat) :
    (record_study card success now m).study_count = card.study_count + 1 := by
  rw [record_study_eq]

/-- C8: recording a study attempt changes only `study_count` and
`next_study`; every other field of the card is preserved, and the new
`next_study` is computed by `sched_next_study`, a function only of the old
`study_count`, the outcome, the clock and the random draw. -/
theorem claim_C8_frame_and_dependence (card : Card) (success : Bool)
    (now : Int) (m : Nat) :
    (record_study card success now m).id = card.id ∧
    (record_study card success now m).front = card.front ∧
    (record_study card success now m).back = card.back ∧
    (record_study card success now m).created_at = card.created_at ∧
    (record_study card success now m).username = card.username ∧
    (record_study card success now m).tags = card.tags ∧
    (record_study card success now m).category_id = card.category_id ∧
    record_study card success now m =
      { card with study_count := card.study_count + 1,
                  next_study := some (sched_next_study card.study_count success now m) } := by
  rw [record_study_eq]
  exact ⟨rfl, rfl, rfl, rfl, rfl, rfl, rfl, rfl⟩

/-- C2: on failure, or on the first-ever attempt (post-increment
`study_count = 1`) whatever the outcome, `next_study` is set to the start of
the calendar day following `now` in UTC (a day-aligned timestamp strictly
after `now`, at most one day ahead); in particular from
`{study_count: 0, next_study: none}` at 2024-01-10T15:00:00Z, both outcomes
yield `{study_count: 1, next_study: 2024-01-11T00:00:00Z}`. -/
theorem claim_C2_first_or_failure_next_day :
    (∀ (card : Card) (success : Bool) (now : Int) (m : Nat),
      success = false ∨ card.study_count = 0 →
        (record_study card success now m).next_study = some (startOfNextDay now) ∧
        (record_study card success now m).study_count = card.study_count + 1 ∧
        startOfNextDay now % usPerDay = 0 ∧
        now < startOfNextDay now ∧ startOfNextDay now ≤ now + usPerDay) ∧
    record_study freshCard true (utcTS 2024 1 10 15 0 0) 3 =
      { freshCard with study_count := 1, next_study := some (utcTS 2024 1 11 0 0 0) } ∧
    record_study freshCard false (utcTS 2024 1 10 15 0 0) 3 =
      { freshCard with study_count := 1, next_study := some (utcTS 2024 1 11 0 0 0) } := by
  refine ⟨?_, by decide, by decide⟩
  intro card success now m h
  rw [record_study_eq]
  refine ⟨?_, rfl, startOfNextDay_emod now, lt_startOfNextDay now, startOfNextDay_le now⟩
  rcases h with h | h <;>
    simp [sched_next_study, h]

/-- Witness for C2: the general branch applied to a concrete failed attempt. -/
theorem claim_C2_witness :
    (record_study freshCard false 0 3).next_study = some (startOfNextDay 0) :=
  ((claim_C2_first_or_failure_next_day).1 freshCard false 0 3 (Or.inl rfl)).1

/-- C1: on a successful attempt with post-increment `study_count > 1`
(i.e. pre-increment count at least 1), for every multiplier `m` in `[3, 5]`
the new `next_study` is exactly `now + min(study_count_pre * m, 30)` days —
no day-start truncation — and therefore lies between
`now + min(study_count_pre * 3, 30)` and `now + min(study_count_pre * 5, 30)`
days inclusive, never more than 30 days after `now`. -/
theorem claim_C1_success_interval (card : Card) (now : Int) (m : Nat)
    (hm3 : 3 ≤ m) (hm5 : m ≤ 5) (hsc : 1 ≤ card.study_count) :
    record_study card true now m =
      { card with study_count := card.study_count + 1,
                  next_study :=
                    some (now + ((min (card.study_count * m) 30 : Nat) : Int) * usPerDay) } ∧
    now + ((min (card.study_count * 3) 30 : Nat) : Int) * usPerDay ≤
      now + ((min (card.study_count * m) 30 : Nat) : Int) * usPerDay ∧
    now + ((min (card.study_count * m) 30 : Nat) : Int) * usPerDay ≤
      now + ((min (card.study_count * 5) 30 : Nat) : Int) * usPerDay ∧
    now + ((min (card.study_count * m) 30 : Nat) : Int) * usPerDay ≤
      now + 30 * usPerDay := by
  have hcond : (card.study_count + 1 == 1) = false := by
    simp only [beq_eq_false_iff_ne, ne_eq, Nat.add_left_eq_self]
    omega
  refine ⟨?_, ?_, ?_, ?_⟩
  · rw [record_study_eq]
    simp [sched_next_study, hcond]
  · have h1 : min (card.study_count * 3) 30 ≤ min (card.study_count * m) 30 :=
      min_le_min (Nat.mul_le_mul_left _ hm3) le_rfl
    have := Int.ofNat_le.mpr h1
    have hD : (0 : Int) ≤ usPerDay := le_of_lt usPerDay_pos
    exact add_le_add_left (mul_le_mul_of_nonneg_right (by exact_mod_cast this) hD) now
  · have h2 : min (card.study_count * m) 30 ≤ min (card.study_count * 5) 30 :=
      min_le_min (Nat.mul_le_mul_left _ hm5) le_rfl
    have := Int.ofNat_le.mpr h2
    have hD : (0 : Int) ≤ usPerDay := le_of_lt usPerDay_pos
    exact add_le_add_left (mul_le_mul_of_nonneg_right (by exact_mod_cast this) hD) now
  · have h3 : min (card.study_count * m) 30 ≤ 30 := min_le_right _ _
    have := Int.ofNat_le.mpr h3
    have hD : (0 : Int) ≤ usPerDay := le_of_lt usPerDay_pos
    exact add_le_add_left (mul_le_mul_of_nonneg_right (by exact_mod_cast this) hD) now

/-- Witness for C1: second successful attempt with `m = 4` lands exactly
four days after `now`, matching the spec's injected-multiplier scenario. -/
theorem claim_C1_witness :
    record_study { freshCard with study_count := 1 } true 0 4 =
      { freshCard with study_count := 1 + 1,
                       next_study := some ((0 : Int) + ((min (1 * 4) 30 : Nat) : Int) * usPerDay) } :=
  (claim_C1_success_interval { freshCard with study_count := 1 } 0 4
    (by decide) (by decide) (by decide)).1

/-- C7: every `next_study` produced by recording a study attempt is strictly
later than the `now` of that attempt, in both the first/failure branch and
the success branch (for any multiplier at least 3, in particular any drawn
from `[3, 5]`). -/
theorem claim_C7_next_study_future (card : Card) (success : Bool) (now : Int)
    (m : Nat) (hm3 : 3 ≤ m) (t : Int)
    (ht : (record_study card success now m).next_study = some t) :
    now < t := by
  rw [record_study_eq] at ht
  simp only [Option.some.injEq] at ht
  subst ht
  unfold sched_next_study
  split
  · exact lt_startOfNextDay now
  · rename_i hcond
    have hsc : 1 ≤ card.study_count := by
      rcases Nat.eq_zero_or_pos card.study_count with h0 | h1
      · exfalso
        apply hcond
        cases success
        · simp
        · simp [h0]
      · exact h1
    have hmin : 1 ≤ min (card.study_count * m) 30 := by
      have : 3 ≤ card.study_count * m :=
        le_trans hm3 (Nat.le_mul_of_pos_left m hsc)
      omega
    have : (0 : Int) < ((min (card.study_count * m) 30 : Nat) : Int) * usPerDay := by
      have h1 : (1 : Int) ≤ ((min (card.study_count * m) 30 : Nat) : Int) := by
        exact_mod_cast hmin
      nlinarith [usPerDay_pos]
    omega

/-- Witness for C7: a concrete first attempt schedules strictly after `now`. -/
theorem claim_C7_witness : (0 : Int) < startOfNextDay 0 :=
  claim_C7_next_study_future freshCard true 0 3 (by decide) (startOfNextDay 0)
    (by decide)

/-- C10: once the post-increment `study_count` is at least 11 (pre-increment
at least 10), a successful attempt schedules exactly 30 days ahead for every
multiplier `m ≥ 3`; the result no longer mentions `m`, so it is independent
of the randomness draw. -/
theorem claim_C10_cap_deterministic (card : Card) (now : Int) (m : Nat)
    (hm3 : 3 ≤ m) (hsc : 10 ≤ card.study_count) :
    record_study card true now m =
      { card with study_count := card.study_count + 1,
                  next_study := some (now + 30 * usPerDay) } := by
  have hcond : (card.study_count + 1 == 1) = false := by
    simp only [beq_eq_false_iff_ne, ne_eq, Nat.add_left_eq_self]
    omega
  have hge : 30 ≤ card.study_count * m := by
    calc (30 : Nat) = 10 * 3 := by norm_num
    _ ≤ card.study_count * m := Nat.mul_le_mul hsc hm3
  have hmin : min (card.study_count * m) 30 = 30 := min_eq_right hge
  rw [record_study_eq]
  simp [sched_next_study, hcond, hmin]

/-- Witness for C10: the eleventh attempt with `m = 3` schedules 30 days out. -/
theorem claim_C10_witness :
    record_study { freshCard with study_count := 10 } true 0 3 =
      { freshCard with study_count := 10 + 1,
                       next_study := some ((0 : Int) + 30 * usPerDay) } :=
  claim_C10_cap_deterministic { freshCard with study_count := 10 } 0 3
    (by decide) (by decide)

/-- The ordering contract of study mode, as a relation between adjacent
cards of the output: a card with no `next_study` is never followed by a card
with one, and timestamps are non-decreasing among cards that have them. -/
def dueOrdered (a b : Card) : Prop :=
  (a.next_study = none → b.next_study = none) ∧
  ∀ ta tb, a.next_study = some ta → b.next_study = some tb → ta ≤ tb

theorem dueLE_trans (a b c : Card) : dueLE a b → dueLE b c → dueLE a c := by
  simp only [dueLE, decide_eq_true_eq]
  omega

theorem dueLE_total (a b : Card) : dueLE a b || dueLE b a := by
  simp only [dueLE, Bool.or_eq_true, decide_eq_true_eq]
  omega

theorem dueLE_to_dueOrdered {a b : Card} (h : dueLE a b) : dueOrdered a b := by
  simp only [dueLE, decide_eq_true_eq] at h
  constructor
  · intro ha
    cases hb : b.next_study with
    | none => rfl
    | some tb =>
      exfalso
      simp only [dueKey, ha, hb, Option.isSome_none, Option.isSome_some,
        if_true, if_false, Bool.false_eq_true, Option.getD_none,
        Option.getD_some] at h
      omega
  · intro ta tb ha hb
    simp only [dueKey, ha, hb, Option.isSome_some, if_true, Option.getD_some] at h
    omega

/-- C4: in study mode, cards with `next_study` unset sort strictly after
every card with it set, cards with it set appear in non-decreasing timestamp
order, and this ordering is applied to the filtered collection before
`skip`/`limit` pagination. -/
theorem claim_C4_study_ordering (db : List Card) (username : String)
    (category_id : Option Nat) (tag : Option String) (skip limit : Nat) :
    List.Pairwise dueOrdered
      ((card_filtered db username category_id tag).mergeSort dueLE) ∧
    list_cards db username true category_id tag skip limit =
      ((((card_filtered db username category_id tag).mergeSort dueLE).drop skip).take limit) := by
  constructor
  · exact (List.sorted_mergeSort dueLE_trans dueLE_total
      (card_filtered db username category_id tag)).imp dueLE_to_dueOrdered
  · rfl

/-- C9: a study request missing the `success` field fails with 400; a study
request whose card is not found among the caller's cards fails with 404; and
any failing study request (400 or 404) leaves every card in the table
unchanged — the scheduler never runs on a failed request. -/
theorem claim_C9_failed_request_no_mutation (db : List Card) (card_id : Nat)
    (username : String) (study_data : Option Bool) (now : Int) (m : Nat) :
    (study_data = none →
      record_study_endpoint db card_id username study_data now m = (some 400, db)) ∧
    (∀ s, study_data = some s →
      db.find? (owned_card card_id username) = none →
      record_study_endpoint db card_id username study_data now m = (some 404, db)) ∧
    (∀ e, (record_study_endpoint db card_id username study_data now m).1 = some e →
      (e = 400 ∨ e = 404) ∧
      (record_study_endpoint db card_id username study_data now m).2 = db) := by
  refine ⟨?_, ?_, ?_⟩
  · intro h
    subst h
    rfl
  · intro s hs hfind
    subst hs
    simp [record_study_endpoint, hfind]
  · intro e he
    cases study_data with
    | none =>
      refine ⟨Or.inl ?_, rfl⟩
      simpa [record_study_endpoint] using he.symm
    | some success =>
      by_cases hfind : (db.find? (owned_card card_id username)).isSome
      · exfalso
        simp [record_study_endpoint, hfind] at he
      · refine ⟨Or.inr ?_, ?_⟩
        · simpa [record_study_endpoint, hfind] using he.symm
        · simp [record_study_endpoint, hfind]

/-- Witness for C9: against an empty table, a request without a `success`
field returns 400, and a well-formed request for a card that does not exist
returns 404; both leave the table empty. -/
theorem claim_C9_witness :
    record_study_endpoint [] 1 "u" none 0 3 = (some 400, []) ∧
    record_study_endpoint [] 1 "u" (some true) 0 3 = (some 404, []) :=
  ⟨(claim_C9_failed_request_no_mutation [] 1 "u" none 0 3).1 rfl,
   (claim_C9_failed_request_no_mutation [] 1 "u" (some true) 0 3).2.1 true rfl rfl⟩

/-- A concrete category row for exercising `create_card`. -/
def catA : Category :=
  { id := 1, name := "vocab", description := "", priority := 0,
    created_at := 0, created_by := "alice" }

/-- A concrete card-creation request targeting `catA`. -/
def ccA : CardCreate :=
  { front := "q", back := "a", tags := ["t"], category_id := 1 }

/-- The row `create_card [] [catA] ccA "alice" 0 100 7` inserts. -/
def createdA : Card :=
  { id := 7, front := "q", back := "a", created_at := 0, username := "alice",
    study_count := 0, next_study := some 100, tags := ["t"], category_id := 1 }

/-- Counterexample to C5: creating a card at `now = 100` yields a row whose
`next_study` is `some 100` — set to the creation instant, not unset
(`next_study=datetime.now(timezone.utc)` in `create_card`). `study_count`
does start at 0. -/
theorem claim_C5_counterexample :
    create_card [] [catA] ccA "alice" 0 100 7 = .ok [createdA] ∧
    createdA.next_study = some 100 ∧
    createdA.next_study ≠ none ∧
    createdA.study_count = 0 :=
  ⟨rfl, rfl, by simp [createdA], rfl⟩

/-- C5 as amended: every newly created card has `study_count = 0` and
`next_study` set to the creation timestamp `now` (not unset). -/
theorem claim_C5_amended_initial_state (db : List Card) (cats : List Category)
    (cc : CardCreate) (uname : String) (ca now : Int) (nid : Nat)
    (cards : List Card)
    (h : create_card db cats cc uname ca now nid = .ok cards) :
    ∃ c, cards = db ++ [c] ∧ c.study_count = 0 ∧ c.next_study = some now := by
  unfold create_card at h
  split at h
  · simp only [Except.ok.injEq] at h
    exact ⟨_, h.symm, rfl, rfl⟩
  · exact Except.noConfusion h

/-- Witness for the amended C5 at a concrete creation. -/
theorem claim_C5_witness :
    ∃ c, [createdA] = ([] : List Card) ++ [c] ∧ c.study_count = 0 ∧
      c.next_study = some 100 :=
  claim_C5_amended_initial_state [] [catA] ccA "alice" 0 100 7 [createdA] rfl

/-- A concrete stored card owned by `bob`, with no schedule. -/
def cardB : Card :=
  { id := 2, front := "f", back := "b", created_at := 0, username := "bob",
    study_count := 4, next_study := none, tags := [], category_id := 1 }

/-- Counterexample to C6: `PUT /cards/{id}` with a `next_study` value in the
body overwrites the card's `next_study` (the `CardUpdate` schema exposes the
field and `update_card` applies it), so a recorded study attempt is not the
only operation writing that field. -/
theorem claim_C6_counterexample :
    update_card [cardB] 2 "bob" { next_study := some (some 5) } =
      .ok [{ cardB with next_study := some 5 }] ∧
    ({ cardB with next_study := some 5 } : Card).next_study ≠ cardB.next_study :=
  ⟨rfl, by simp [cardB]⟩

/-- C6 as amended: a recorded study attempt is the only operation mutating
`study_count` (updates preserve it, creation initializes it to 0, deletion
only removes rows); `next_study`, however, is also written by card creation
(to the creation instant) and by card update whenever the request supplies a
`next_study` value — update leaves it unchanged only when the field is
absent from the request. -/
theorem claim_C6_amended_sole_mutator :
    (∀ (c : Card) (u : CardUpdate), (apply_update c u).study_count = c.study_count) ∧
    (∀ (c : Card) (u : CardUpdate), u.next_study = none →
      (apply_update c u).next_study = c.next_study) ∧
    (∀ (db : List Card) (cats : List Category) (cc : CardCreate) (uname : String)
        (ca now : Int) (nid : Nat) (cards : List Card),
      create_card db cats cc uname ca now nid = .ok cards →
      cards.map Card.study_count = db.map Card.study_count ++ [0] ∧
      cards.map Card.next_study = db.map Card.next_study ++ [some now]) ∧
    (∀ (db : List Card) (cid : Nat) (uname : String) (cards : List Card),
      delete_card db cid uname = .ok cards → ∀ c ∈ cards, c ∈ db) := by
  refine ⟨fun c u => rfl, fun c u h => ?_, fun db cats cc uname ca now nid cards h => ?_,
    fun db cid uname cards h c hc => ?_⟩
  · simp [apply_update, h]
  · unfold create_card at h
    split at h
    · simp only [Except.ok.injEq] at h
      subst h
      simp
    · exact Except.noConfusion h
  · unfold delete_card at h
    split at h
    · simp only [Except.ok.injEq] at h
      subst h
      exact List.mem_of_mem_eraseP hc
    · exact Except.noConfusion h

/-- Witness for the amended C6: an update supplying no `next_study` leaves a
concrete card's schedule unchanged. -/
theorem claim_C6_witness :
    (apply_update cardB {}).next_study = cardB.next_study :=
  claim_C6_amended_sole_mutator.2.1 cardB {} rfl

end MemoizeApi
